import Mathlib

/-!
# ESP32-CAM motion detector client: verification development

A shallow embedding of `ESP32/Client/src/main.cpp` (the firmware loop of the
camera node) and theorems about it.

Conventions of the embedding

* `unsigned long` / `uint32_t` values are natural numbers below `2^32`;
  unsigned subtraction is `sub32`.
* The globals of the sketch are the fields of `State`.  Calls into the
  camera driver, the HTTP client, the heap, the status LED and the radio are
  recorded, oldest first, in `State.calls`; what those devices answer (a frame
  or none, a buffer or none, a response code, a radio status) is an argument of
  the function that makes the call.
* `Serial` output is diagnostic only and is not modelled.
* The values of `secrets.h` (device id, WiFi timeout) are parameters.
-/

namespace ESP32Cam

/-! ## Configuration (`#define`s of main.cpp) -/

/-- Line 40: `#define MOTION_COOLDOWN_MS 5000`. -/
def MOTION_COOLDOWN_MS : Nat := 5000

/-- Line 43: `#define STREAM_INTERVAL_MS 100`. -/
def STREAM_INTERVAL_MS : Nat := 100

/-- Line 46: `#define HTTP_TIMEOUT_MS 10000`. -/
def HTTP_TIMEOUT_MS : Nat := 10000

/-! ## Machine arithmetic -/

/-- Number of values of a 32-bit unsigned integer (`unsigned long` on the ESP32). -/
def WORD : Nat := 4294967296

/-- Value returned by `millis()` when `clock` milliseconds have passed since boot:
the counter is an `unsigned long` and wraps. -/
def millis (clock : Nat) : Nat := clock % 4294967296

/-- Unsigned 32-bit subtraction `a - b`. -/
def sub32 (a b : Nat) : Nat := (a % 4294967296 + 4294967296 - b % 4294967296) % 4294967296

/-- Unsigned 32-bit addition `a + b`. -/
def add32 (a b : Nat) : Nat := (a + b) % 4294967296

/-! ## Data model -/

/-- The fields of `camera_fb_t` the sketch reads: `buf` (with `len = buf.length`),
`width`, `height`.  A null `camera_fb_t*` is `none : Option Frame`. -/
structure Frame where
  buf : List Nat
  width : Nat
  height : Nat
deriving DecidableEq

/-- Member `len` of `camera_fb_t`. -/
def Frame.len (fb : Frame) : Nat := fb.buf.length

/-- Calls the sketch makes on the devices around it. -/
inductive Call where
  /-- `esp_camera_fb_get()` together with what it returned. -/
  | fbGet (result : Option Frame)
  /-- `esp_camera_fb_return(fb)`. -/
  | fbReturn (fb : Frame)
  /-- `http.begin(url)`, the url given by its path. -/
  | httpBegin (path : String)
  /-- `http.setTimeout(ms)`. -/
  | httpSetTimeout (ms : Nat)
  /-- `http.addHeader(name, value)`; the value is kept for the content type only. -/
  | httpAddHeader (name : String) (value : List Nat)
  /-- `http.POST(body, len)` together with the response code it returned. -/
  | httpPost (body : List Nat) (code : Int)
  /-- `http.getString()`. -/
  | httpGetString
  /-- `http.end()`. -/
  | httpEnd
  /-- `malloc(n)` together with whether it returned a buffer. -/
  | malloc (n : Nat) (ok : Bool)
  /-- `free(buffer)`. -/
  | free
  /-- `digitalWrite(LED_PIN, HIGH/LOW)`. -/
  | led (high : Bool)
  /-- `WiFi.mode(WIFI_STA); WiFi.begin(ssid, password)`. -/
  | wifiBegin
  /-- `delay(ms)`. -/
  | delay (ms : Nat)
deriving DecidableEq

/-- Global state of the sketch (lines 78-87) and the record of device calls. -/
structure State where
  motionDetected : Bool
  lastMotionTime : Nat
  streamingEnabled : Bool
  lastStreamTime : Nat
  wifiConnected : Bool
  calls : List Call
deriving DecidableEq

/-- The initialisers of the globals, lines 79-87. -/
def initState : State :=
  { motionDetected := false
    lastMotionTime := 0
    streamingEnabled := true
    lastStreamTime := 0
    wifiConnected := false
    calls := [] }

/-- Append one device call to the record. -/
def State.call (s : State) (c : Call) : State := { s with calls := s.calls ++ [c] }

/-! ## PIR interrupt handler (lines 349-356) -/

/-- The test `now - lastMotionTime > MOTION_COOLDOWN_MS` of line 352. -/
def pirFires (now : Nat) (s : State) : Bool :=
  decide (sub32 now s.lastMotionTime > MOTION_COOLDOWN_MS)

/-- `pirInterruptHandler()`, with `now` the value `millis()` returned at line 351. -/
def pirInterruptHandler (now : Nat) (s : State) : State :=
  if pirFires now s then
    { s with motionDetected := true, lastMotionTime := now }
  else
    s

/-! ## Camera module (lines 177-191) -/

/-- `CameraModule::captureFrame()`; `result` is what `esp_camera_fb_get()` returns. -/
def captureFrame (result : Option Frame) (s : State) : Option Frame × State :=
  (result, s.call (Call.fbGet result))

/-- `CameraModule::releaseFrame(fb)`: returns the buffer to the driver unless `fb`
is null. -/
def releaseFrame (fb : Option Frame) (s : State) : State :=
  match fb with
  | some f => s.call (Call.fbReturn f)
  | none => s

/-! ## Multipart request body (lines 264-280) -/

/-- Bytes of an ASCII string literal. -/
def ascii (s : String) : List Nat := s.toList.map Char.toNat

/-- Values of `secrets.h` the embedded functions use. -/
structure Secrets where
  DEVICE_ID : List Nat
  AUTH_TOKEN : List Nat
  WIFI_TIMEOUT_MS : Nat

/-- Line 265: `String boundary = "----ESP32CAMBoundary"`. -/
def boundary : List Nat := ascii "----ESP32CAMBoundary"

/-- Line 266: `"multipart/form-data; boundary=" + boundary`. -/
def contentType : List Nat := ascii "multipart/form-data; boundary=" ++ boundary

/-- Lines 271-276: the text in front of the frame bytes. -/
def bodyStart (deviceId : List Nat) : List Nat :=
  (ascii "--" ++ boundary ++ ascii "\r\n")
    ++ ascii "Content-Disposition: form-data; name=\"device_id\"\r\n\r\n"
    ++ (deviceId ++ ascii "\r\n")
    ++ (ascii "--" ++ boundary ++ ascii "\r\n")
    ++ ascii "Content-Disposition: form-data; name=\"image\"; filename=\"capture.jpg\"\r\n"
    ++ ascii "Content-Type: image/jpeg\r\n\r\n"

/-- Line 278: `"\r\n--" + boundary + "--\r\n"`. -/
def bodyEnd : List Nat := ascii "\r\n--" ++ boundary ++ ascii "--\r\n"

/-- Line 280: `uint32_t totalLen = bodyStart.length() + fb->len + bodyEnd.length()`. -/
def totalLen (deviceId : List Nat) (fb : Frame) : Nat :=
  add32 (add32 (bodyStart deviceId).length fb.len) bodyEnd.length

/-- Lines 291-293: what the three `memcpy` calls write, in order. -/
def uploadBody (deviceId : List Nat) (fb : Frame) : List Nat :=
  bodyStart deviceId ++ fb.buf ++ bodyEnd

/-! ## HTTP communication (lines 248-343) -/

/-- `uploadImage(fb)`.  `mallocOk` says whether `malloc(totalLen)` returns a buffer,
`code` is what `http.POST` returns.  `POST(buffer, totalLen)` sends the first
`totalLen` bytes of the buffer. -/
def uploadImage (cfg : Secrets) (fb : Option Frame) (mallocOk : Bool) (code : Int)
    (s : State) : Bool × State :=
  match fb with
  | none => (false, s)
  | some f =>
    if !s.wifiConnected then (false, s)
    else
      let s1 := s.call (Call.httpBegin "/upload")
      let s2 := s1.call (Call.httpSetTimeout HTTP_TIMEOUT_MS)
      let s3 := s2.call (Call.httpAddHeader "X-Auth-Token" cfg.AUTH_TOKEN)
      let s4 := s3.call (Call.httpAddHeader "Content-Type" contentType)
      let n := totalLen cfg.DEVICE_ID f
      let s5 := s4.call (Call.malloc n mallocOk)
      if !mallocOk then (false, s5.call Call.httpEnd)
      else
        let s6 := s5.call (Call.httpPost ((uploadBody cfg.DEVICE_ID f).take n) code)
        let s7 := s6.call Call.free
        if code > 0 then
          if code = 200 then
            (true, (s7.call Call.httpGetString).call Call.httpEnd)
          else (false, s7.call Call.httpEnd)
        else (false, s7.call Call.httpEnd)

/-- `sendStreamFrame(fb)`; `code` is what `http.POST` returns. -/
def sendStreamFrame (cfg : Secrets) (fb : Option Frame) (code : Int) (s : State) :
    Bool × State :=
  match fb with
  | none => (false, s)
  | some f =>
    if !s.wifiConnected then (false, s)
    else
      let s1 := s.call (Call.httpBegin "/stream_frame")
      let s2 := s1.call (Call.httpSetTimeout 5000)
      let s3 := s2.call (Call.httpAddHeader "X-Auth-Token" cfg.AUTH_TOKEN)
      let s4 := s3.call (Call.httpAddHeader "Content-Type" (ascii "image/jpeg"))
      let s5 := s4.call (Call.httpPost (f.buf.take f.len) code)
      (decide (code = 200), s5.call Call.httpEnd)

/-! ## Motion handler (lines 362-393) -/

/-- `handleMotionEvent()`.  `cap` is what the camera driver returns, `mallocOk`
and `code` are the answers to `uploadImage`. -/
def handleMotionEvent (cfg : Secrets) (cap : Option Frame) (mallocOk : Bool) (code : Int)
    (s : State) : State :=
  let s1 := s.call (Call.led true)
  let (fb, s2) := captureFrame cap s1
  let s3 :=
    match fb with
    | some f =>
      let (_, t) := uploadImage cfg (some f) mallocOk code s2
      releaseFrame (some f) t
    | none => s2
  let s4 := s3.call (Call.led false)
  { s4 with motionDetected := false }

/-! ## Streaming handler (lines 399-415) -/

/-- The test `now - lastStreamTime < STREAM_INTERVAL_MS` of line 403. -/
def streamTooEarly (now : Nat) (s : State) : Bool :=
  decide (sub32 now s.lastStreamTime < STREAM_INTERVAL_MS)

/-- `handleStreaming()`, with `now` the value `millis()` returned at line 400. -/
def handleStreaming (cfg : Secrets) (now : Nat) (cap : Option Frame) (code : Int)
    (s : State) : State :=
  if streamTooEarly now s then s
  else
    let s1 := { s with lastStreamTime := now }
    let (fb, s2) := captureFrame cap s1
    match fb with
    | some f =>
      let (_, t) := sendStreamFrame cfg (some f) code s2
      releaseFrame (some f) t
    | none => s2

/-! ## WiFi module (lines 201-242) -/

/-- The sketch together with the passage of time and the radio.  `clock` is the
number of milliseconds since boot (only `delay` advances it in this model);
`polls` counts the calls of `WiFi.status()` made so far. -/
structure World where
  st : State
  clock : Nat
  polls : Nat
deriving DecidableEq

/-- `delay(ms)`. -/
def World.delay (w : World) (ms : Nat) : World :=
  { w with st := w.st.call (Call.delay ms), clock := w.clock + ms }

/-- `digitalWrite(LED_PIN, v)`. -/
def World.led (w : World) (high : Bool) : World :=
  { w with st := w.st.call (Call.led high) }

/-- The `while` loop of lines 209-212.  `radio k` says whether the `k`-th call of
`WiFi.status()` returns `WL_CONNECTED`.  The first argument bounds the number of
tests of the loop condition; `none` means the bound was reached. -/
def connectWait (radio : Nat → Bool) (timeout start : Nat) : Nat → World → Option World
  | 0, _ => none
  | fuel + 1, w =>
    let connected := radio w.polls
    let w1 := { w with polls := w.polls + 1 }
    if !connected && decide (sub32 (millis w1.clock) start < timeout) then
      connectWait radio timeout start fuel (w1.delay 500)
    else
      some w1

/-- The `for` loop of lines 221-226, `n` rounds. -/
def blink : Nat → World → World
  | 0, w => w
  | n + 1, w => blink n ((((w.led true).delay 100).led false).delay 100)

/-- `connectWiFi()`. -/
def connectWiFi (fuel : Nat) (radio : Nat → Bool) (cfg : Secrets) (w : World) :
    Option World :=
  let w1 := { w with st := w.st.call Call.wifiBegin }
  let startAttempt := millis w1.clock
  match connectWait radio cfg.WIFI_TIMEOUT_MS startAttempt fuel w1 with
  | none => none
  | some w2 =>
    let connected := radio w2.polls
    let w3 := { w2 with polls := w2.polls + 1 }
    if connected then
      some (blink 3 { w3 with st := { w3.st with wifiConnected := true } })
    else
      some { w3 with st := { w3.st with wifiConnected := false } }

/-- `checkWiFi()`. -/
def checkWiFi (fuel : Nat) (radio : Nat → Bool) (cfg : Secrets) (w : World) :
    Option World :=
  let connected := radio w.polls
  let w1 := { w with polls := w.polls + 1 }
  if !connected then
    let w2 := if w1.st.wifiConnected then
        { w1 with st := { w1.st with wifiConnected := false } }
      else w1
    connectWiFi fuel radio cfg w2
  else
    some w1

/-! ## Setup and main loop (lines 421-504) -/

/-- How `setup()` ends. -/
inductive Boot where
  /-- `setup()` returned; `loop()` runs from this state. -/
  | running (w : World)
  /-- One of the two `while(1)` loops of `setup()` was entered. -/
  | halted
  /-- The bound on the connect loop was reached. -/
  | noFuel
deriving DecidableEq

/-- `setup()`.  `cameraOk` is the result of `camera.init()`, `testCap` what the
driver returns for the test capture. -/
def setup (fuel : Nat) (radio : Nat → Bool) (cfg : Secrets) (cameraOk : Bool)
    (testCap : Option Frame) : Boot :=
  let w0 : World := { st := initState, clock := 0, polls := 0 }
  let w1 := (w0.delay 1000).led false
  if !cameraOk then Boot.halted
  else
    match connectWiFi fuel radio cfg w1 with
    | none => Boot.noFuel
    | some w2 =>
      if !w2.st.wifiConnected then Boot.halted
      else
        let (fb, s3) := captureFrame testCap w2.st
        let s4 := match fb with
          | some f => releaseFrame (some f) s3
          | none => s3
        Boot.running { w2 with st := s4 }

/-- What the devices answer during one iteration of `loop()`. -/
structure LoopIn where
  motionCap : Option Frame
  motionMalloc : Bool
  motionCode : Int
  streamCap : Option Frame
  streamCode : Int

/-- One iteration of `loop()`. -/
def loop (fuel : Nat) (radio : Nat → Bool) (cfg : Secrets) (inp : LoopIn) (w : World) :
    Option World :=
  match checkWiFi fuel radio cfg w with
  | none => none
  | some w1 =>
    let w2 := if w1.st.motionDetected && w1.st.wifiConnected then
        { w1 with st := handleMotionEvent cfg inp.motionCap inp.motionMalloc inp.motionCode w1.st }
      else w1
    let w3 := if w2.st.streamingEnabled && w2.st.wifiConnected then
        { w2 with st := handleStreaming cfg (millis w2.clock) inp.streamCap inp.streamCode w2.st }
      else w2
    some (w3.delay 10)

/-! ## Runs of the interrupt handler and of the streaming handler -/

/-- What can happen to the motion variables: a rising edge of the PIR pin
`t` milliseconds after boot (the handler runs and reads `millis t`), or the
scheduler running `handleMotionEvent` with some answers of the devices. -/
inductive MotionEv where
  | edge (t : Nat)
  | handled (cap : Option Frame) (mallocOk : Bool) (code : Int)

/-- Times of the edges of a run, in order. -/
def edgeTimes : List MotionEv → List Nat
  | [] => []
  | MotionEv.edge t :: rest => t :: edgeTimes rest
  | MotionEv.handled _ _ _ :: rest => edgeTimes rest

/-- State after one event. -/
def motionStep (cfg : Secrets) (s : State) : MotionEv → State
  | MotionEv.edge t => pirInterruptHandler (millis t) s
  | MotionEv.handled cap mallocOk code => handleMotionEvent cfg cap mallocOk code s

/-- State after a run of events. -/
def motionRun (cfg : Secrets) : State → List MotionEv → State
  | s, [] => s
  | s, e :: rest => motionRun cfg (motionStep cfg s e) rest

/-- Times of the edges on which the handler takes the branch of line 352 and sets
`motionDetected`, in order. -/
def handledEdges (cfg : Secrets) : State → List MotionEv → List Nat
  | _, [] => []
  | s, MotionEv.edge t :: rest =>
    if pirFires (millis t) s then
      t :: handledEdges cfg (motionStep cfg s (MotionEv.edge t)) rest
    else
      handledEdges cfg (motionStep cfg s (MotionEv.edge t)) rest
  | s, MotionEv.handled cap mallocOk code :: rest =>
    handledEdges cfg (motionStep cfg s (MotionEv.handled cap mallocOk code)) rest

/-- One call of `handleStreaming` at `t` milliseconds after boot, with the answers
of the camera and of the collector. -/
structure StreamCall where
  t : Nat
  cap : Option Frame
  code : Int

/-- Times of the calls that get past the test of line 403 and start a capture/send
attempt, in order. -/
def streamAttempts (cfg : Secrets) : State → List StreamCall → List Nat
  | _, [] => []
  | s, c :: rest =>
    if streamTooEarly (millis c.t) s then
      streamAttempts cfg (handleStreaming cfg (millis c.t) c.cap c.code s) rest
    else
      c.t :: streamAttempts cfg (handleStreaming cfg (millis c.t) c.cap c.code s) rest

/-! ## Counting camera and transport calls -/

/-- An `esp_camera_fb_get()` that returned a frame. -/
def Call.isAcquire : Call → Bool
  | Call.fbGet (some _) => true
  | _ => false

/-- An `esp_camera_fb_return`. -/
def Call.isRelease : Call → Bool
  | Call.fbReturn _ => true
  | _ => false

/-- An `esp_camera_fb_get()`, whatever it returned. -/
def Call.isCapture : Call → Bool
  | Call.fbGet _ => true
  | _ => false

/-- A call on the camera driver. -/
def Call.isCamera : Call → Bool
  | Call.fbGet _ => true
  | Call.fbReturn _ => true
  | _ => false

/-- An `http.POST`. -/
def Call.isPost : Call → Bool
  | Call.httpPost _ _ => true
  | _ => false

/-- Number of frames the driver handed out. -/
def acquired (cs : List Call) : Nat := cs.countP Call.isAcquire

/-- Number of frames given back to the driver. -/
def released (cs : List Call) : Nat := cs.countP Call.isRelease

/-- Number of capture calls. -/
def captures (cs : List Call) : Nat := cs.countP Call.isCapture

/-- The calls on the camera driver, in order. -/
def cameraCalls (cs : List Call) : List Call := cs.filter Call.isCamera

/-- Number of `http.POST` calls. -/
def posts (cs : List Call) : Nat := cs.countP Call.isPost

/-! ## The motion cycle statement by statement -/

/-- Position in the motion part of `loop()`: the test of line 493, then the
statements of `handleMotionEvent` that touch a device or a global. -/
inductive Pc where
  | test
  | ledOn
  | capture
  | upload
  | release
  | ledOff
  | reset
  | done
deriving DecidableEq

/-- The cycle in progress: position, the local `fb`, and the globals. -/
structure Cycle where
  pc : Pc
  fb : Option Frame
  st : State
deriving DecidableEq

/-- Execute the statement at `pc` (lines 493, 366, 369, 375, 383, 389, 392). -/
def motionStmt (cfg : Secrets) (cap : Option Frame) (mallocOk : Bool) (code : Int)
    (c : Cycle) : Cycle :=
  match c.pc with
  | Pc.test =>
    if c.st.motionDetected && c.st.wifiConnected then { c with pc := Pc.ledOn }
    else { c with pc := Pc.done }
  | Pc.ledOn => { c with pc := Pc.capture, st := c.st.call (Call.led true) }
  | Pc.capture =>
    let (fb, s) := captureFrame cap c.st
    { pc := if fb.isSome then Pc.upload else Pc.ledOff, fb := fb, st := s }
  | Pc.upload =>
    { c with pc := Pc.release, st := (uploadImage cfg c.fb mallocOk code c.st).2 }
  | Pc.release => { c with pc := Pc.ledOff, st := releaseFrame c.fb c.st }
  | Pc.ledOff => { c with pc := Pc.reset, st := c.st.call (Call.led false) }
  | Pc.reset => { c with pc := Pc.done, st := { c.st with motionDetected := false } }
  | Pc.done => c

/-- Run a cycle under a schedule: `none` lets the main loop execute its next
statement, `some now` lets the interrupt handler run (reading `now` from
`millis()`) before that statement.  The cycle has ended when `pc = done`; what
is scheduled after that belongs to the next cycle and is not consumed. -/
def runCycle (cfg : Secrets) (cap : Option Frame) (mallocOk : Bool) (code : Int) :
    List (Option Nat) → Cycle → Cycle
  | [], c => c
  | ev :: rest, c =>
    if c.pc = Pc.done then c
    else
      match ev with
      | none => runCycle cfg cap mallocOk code rest (motionStmt cfg cap mallocOk code c)
      | some now =>
        runCycle cfg cap mallocOk code rest { c with st := pirInterruptHandler now c.st }

/-- Whether the capture statement of the cycle is still to be executed. -/
def captureAhead : Pc → Bool
  | Pc.test => true
  | Pc.ledOn => true
  | Pc.capture => true
  | _ => false

/-! ## Multipart rendering as the specification words it -/

/-- One part of a multipart body: its header lines and its payload. -/
structure Part where
  headers : List (List Nat)
  payload : List Nat

/-- Line terminator. -/
def crlf : List Nat := [13, 10]

/-- Header lines, each terminated by CRLF. -/
def renderHeaders : List (List Nat) → List Nat
  | [] => []
  | h :: hs => h ++ crlf ++ renderHeaders hs

/-- One part: the delimiter `--boundary`, CRLF, the header lines, an empty line,
the payload, CRLF. -/
def renderPart (b : List Nat) (p : Part) : List Nat :=
  ascii "--" ++ b ++ crlf ++ renderHeaders p.headers ++ crlf ++ p.payload ++ crlf

/-- The parts in order. -/
def renderParts (b : List Nat) : List Part → List Nat
  | [] => []
  | p :: ps => renderPart b p ++ renderParts b ps

/-- A multipart body with the given parts, in order, terminated by the closing
boundary `--boundary--`. -/
def multipartBody (b : List Nat) (parts : List Part) : List Nat :=
  renderParts b parts ++ (ascii "--" ++ b ++ ascii "--" ++ crlf)

/-- The form field `device_id` carrying the device id. -/
def deviceIdPart (deviceId : List Nat) : Part :=
  { headers := [ascii "Content-Disposition: form-data; name=\"device_id\""]
    payload := deviceId }

/-- The form field `image` with content type `image/jpeg` carrying the frame. -/
def imagePart (frame : List Nat) : Part :=
  { headers := [ascii "Content-Disposition: form-data; name=\"image\"; filename=\"capture.jpg\"",
                ascii "Content-Type: image/jpeg"]
    payload := frame }

/-- The delimiter `--boundary` that opens a part and starts the closing boundary. -/
def delimiter : List Nat := ascii "--" ++ boundary

/-- Whether `s` starts with `pat`. -/
def startsWith : List Nat → List Nat → Bool
  | [], _ => true
  | _ :: _, [] => false
  | p :: ps, c :: cs => p == c && startsWith ps cs

/-- Number of positions of `s` at which `pat` occurs. -/
def countOcc (pat : List Nat) : List Nat → Nat
  | [] => 0
  | c :: cs => (if startsWith pat (c :: cs) then 1 else 0) + countOcc pat cs

/-! ## Example values and auxiliary definitions used in the statements -/

/-- A `secrets.h` with device id `cam1`. -/
def demoSecrets : Secrets :=
  { DEVICE_ID := ascii "cam1", AUTH_TOKEN := ascii "token", WIFI_TIMEOUT_MS := 10000 }

/-- A frame of ten bytes. -/
def demoFrame : Frame :=
  { buf := [255, 216, 255, 224, 0, 16, 74, 70, 255, 217], width := 640, height := 480 }

/-- The globals other than the call record agree. -/
def SameGlobals (s t : State) : Prop :=
  t.motionDetected = s.motionDetected ∧ t.lastMotionTime = s.lastMotionTime ∧
  t.streamingEnabled = s.streamingEnabled ∧ t.lastStreamTime = s.lastStreamTime ∧
  t.wifiConnected = s.wifiConnected

/-- Text of `bodyStart` in front of the device id, without its last byte (LF). -/
def headOfFirstPart : List Nat :=
  ascii "--" ++ boundary ++ ascii "\r\nContent-Disposition: form-data; name=\"device_id\"\r\n\r"

/-- Text of `bodyStart` between the device id and the frame, without its first byte
(CR) and its last byte (LF). -/
def headOfSecondPart : List Nat :=
  ascii "\n--" ++ boundary
    ++ ascii "\r\nContent-Disposition: form-data; name=\"image\"; filename=\"capture.jpg\"\r\n"
    ++ ascii "Content-Type: image/jpeg\r\n\r"

/-- Text of `bodyEnd` without its first byte (CR). -/
def closingLine : List Nat := ascii "\n--" ++ boundary ++ ascii "--\r\n"

/-- What one run of a handler that captures adds to the camera calls. -/
def cameraCallsOf (cap : Option Frame) : List Call :=
  match cap with
  | some f => [Call.fbGet (some f), Call.fbReturn f]
  | none => [Call.fbGet none]

/-- Frames handed out by the driver and not yet given back. -/
def framesHeld (cs : List Call) : Int := (acquired cs : Int) - (released cs : Int)

/-- A radio that is connected during `setup()` (status polls 0 and 1), reports
not connected for the next 23 polls, and is connected again from poll 25 on. -/
def staleRadio (k : Nat) : Bool := decide (k < 2 ∨ 25 ≤ k)

/-- Device answers of an iteration in which every capture and request succeeds. -/
def quietLoop : LoopIn :=
  { motionCap := some demoFrame, motionMalloc := true, motionCode := 200,
    streamCap := some demoFrame, streamCode := 200 }

/-- A rising edge of the PIR pin between two iterations of `loop()`. -/
def World.edge (w : World) : World :=
  { w with st := pirInterruptHandler (millis w.clock) w.st }

/-- A cycle about to start: the loop is at the test of line 493 with the flag set by
an edge at 6000 ms and the link up. -/
def pendingCycle : Cycle :=
  { pc := Pc.test, fb := none,
    st := { initState with motionDetected := true, lastMotionTime := 6000,
                           wifiConnected := true } }

/-! ## Basic facts about the handlers -/

@[simp] theorem call_motionDetected (s : State) (c : Call) :
    (s.call c).motionDetected = s.motionDetected := rfl

@[simp] theorem call_lastMotionTime (s : State) (c : Call) :
    (s.call c).lastMotionTime = s.lastMotionTime := rfl

@[simp] theorem call_streamingEnabled (s : State) (c : Call) :
    (s.call c).streamingEnabled = s.streamingEnabled := rfl

@[simp] theorem call_lastStreamTime (s : State) (c : Call) :
    (s.call c).lastStreamTime = s.lastStreamTime := rfl

@[simp] theorem call_wifiConnected (s : State) (c : Call) :
    (s.call c).wifiConnected = s.wifiConnected := rfl

@[simp] theorem call_calls (s : State) (c : Call) :
    (s.call c).calls = s.calls ++ [c] := rfl

theorem uploadImage_sameGlobals (cfg : Secrets) (fb : Option Frame) (mallocOk : Bool)
    (code : Int) (s : State) : SameGlobals s (uploadImage cfg fb mallocOk code s).2 := by
  unfold uploadImage SameGlobals
  cases fb with
  | none => simp
  | some f =>
    by_cases hw : s.wifiConnected = true
    · by_cases hm : mallocOk = true
      · by_cases hp : code > 0
        · by_cases h2 : code = 200 <;> simp [hw, hm, hp, h2]
        · simp [hw, hm, hp]
      · simp [hw, hm]
    · simp [hw]

theorem sendStreamFrame_sameGlobals (cfg : Secrets) (fb : Option Frame) (code : Int)
    (s : State) : SameGlobals s (sendStreamFrame cfg fb code s).2 := by
  unfold sendStreamFrame SameGlobals
  cases fb with
  | none => simp
  | some f => by_cases hw : s.wifiConnected = true <;> simp [hw]

theorem handleMotionEvent_lastMotionTime (cfg : Secrets) (cap : Option Frame)
    (mallocOk : Bool) (code : Int) (s : State) :
    (handleMotionEvent cfg cap mallocOk code s).lastMotionTime = s.lastMotionTime := by
  cases cap with
  | none => simp [handleMotionEvent, captureFrame]
  | some f =>
    have h := (uploadImage_sameGlobals cfg (some f) mallocOk code
      ((s.call (Call.led true)).call (Call.fbGet (some f)))).2.1
    simpa [handleMotionEvent, captureFrame, releaseFrame] using h

theorem handleMotionEvent_motionDetected (cfg : Secrets) (cap : Option Frame)
    (mallocOk : Bool) (code : Int) (s : State) :
    (handleMotionEvent cfg cap mallocOk code s).motionDetected = false := by
  cases cap <;> simp [handleMotionEvent, captureFrame]

/-! ## Cooldown of the interrupt handler -/

/-- When the stored time is the reading of a clock value `T` not after `t`, the
handler fires at `t` only if more than the cooldown separates the two. -/
theorem pirFires_gap (t T : Nat) (s : State) (hs : s.lastMotionTime = millis T)
    (hT : T ≤ t) (h : pirFires (millis t) s = true) : T + 5000 < t := by
  simp only [pirFires, sub32, millis, MOTION_COOLDOWN_MS, hs, decide_eq_true_eq] at h
  omega

theorem pirInterruptHandler_fires (now : Nat) (s : State) (h : pirFires now s = true) :
    pirInterruptHandler now s = { s with motionDetected := true, lastMotionTime := now } := by
  simp [pirInterruptHandler, h]

theorem pirInterruptHandler_ignored (now : Nat) (s : State) (h : pirFires now s = false) :
    pirInterruptHandler now s = s := by
  simp [pirInterruptHandler, h]

theorem handledEdges_spaced (cfg : Secrets) :
    ∀ (evs : List MotionEv) (s : State) (T : Nat), s.lastMotionTime = millis T →
      (∀ t ∈ edgeTimes evs, T ≤ t) → (edgeTimes evs).Pairwise (fun a b => a ≤ b) →
      (∀ a ∈ handledEdges cfg s evs, T + 5000 < a) ∧
        (handledEdges cfg s evs).Pairwise (fun a b => a + 5000 < b) := by
  intro evs
  induction evs with
  | nil => intro s T _ _ _; simp [handledEdges]
  | cons e rest ih =>
    intro s T hs hge hsorted
    cases e with
    | edge t =>
      simp only [edgeTimes, List.pairwise_cons, List.mem_cons, forall_eq_or_imp] at hge hsorted
      by_cases hf : pirFires (millis t) s = true
      · have hgap := pirFires_gap t T s hs hge.1 hf
        have hnext : (motionStep cfg s (MotionEv.edge t)).lastMotionTime = millis t := by
          simp [motionStep, pirInterruptHandler_fires _ _ hf]
        obtain ⟨h1, h2⟩ := ih _ t hnext hsorted.1 hsorted.2
        simp only [handledEdges, hf, if_true, List.mem_cons, forall_eq_or_imp,
          List.pairwise_cons]
        refine ⟨⟨hgap, fun a ha => ?_⟩, h1, h2⟩
        have := h1 a ha
        omega
      · have hf' : pirFires (millis t) s = false := by simpa using hf
        have hnext : (motionStep cfg s (MotionEv.edge t)).lastMotionTime = millis T := by
          simp [motionStep, pirInterruptHandler_ignored _ _ hf', hs]
        obtain ⟨h1, h2⟩ := ih _ T hnext hge.2 hsorted.2
        simp only [handledEdges, hf']
        exact ⟨h1, h2⟩
    | handled cap mallocOk code =>
      simp only [edgeTimes] at hge hsorted
      have hnext : (motionStep cfg s (MotionEv.handled cap mallocOk code)).lastMotionTime
          = millis T := by
        simp [motionStep, handleMotionEvent_lastMotionTime, hs]
      simpa [handledEdges] using ih _ T hnext hge hsorted

/-- C1. From the initial state, for every run of interrupt edges with
non-decreasing times, interleaved with any number of runs of `handleMotionEvent`
(which reset the flag), the handler reading the clock as a 32-bit millisecond
counter: any two edges on which the handler sets `motionDetected` are more than
`MOTION_COOLDOWN_MS` apart. -/
theorem C1_handled_edges_spaced_by_cooldown (cfg : Secrets) (evs : List MotionEv)
    (hsorted : (edgeTimes evs).Pairwise (fun a b => a ≤ b)) :
    (handledEdges cfg initState evs).Pairwise (fun a b => a + MOTION_COOLDOWN_MS < b) := by
  have h := handledEdges_spaced cfg evs initState 0 (by simp [initState, millis])
    (fun t _ => Nat.zero_le t) hsorted
  simpa [MOTION_COOLDOWN_MS] using h.2

/-- Witness for C1: edges at 0, 2000, 5001, 7000 and 10002 ms with the flag reset
after the third; the handler sets the flag at 5001 and at 10002. -/
theorem C1_handled_edges_spaced_by_cooldown_witness :
    (edgeTimes [MotionEv.edge 0, MotionEv.edge 2000, MotionEv.edge 5001,
        MotionEv.handled none true 200, MotionEv.edge 7000, MotionEv.edge 10002]).Pairwise
        (fun a b => a ≤ b) ∧
      (handledEdges demoSecrets initState
        [MotionEv.edge 0, MotionEv.edge 2000, MotionEv.edge 5001,
          MotionEv.handled none true 200, MotionEv.edge 7000, MotionEv.edge 10002]).Pairwise
        (fun a b => a + MOTION_COOLDOWN_MS < b) :=
  ⟨by decide, C1_handled_edges_spaced_by_cooldown demoSecrets _ (by decide)⟩

/-! ## The cooldown scenario -/

/-- C2, as stated, fails: from the initial state the edge at t=0 does not set the
flag (`0 - 0 > 5000` is false), nor does the edge at t=2000; no edge of the pair is
handled and the state is still the initial one. -/
theorem C2_first_edge_at_zero_not_handled :
    (pirInterruptHandler (millis 0) initState).motionDetected = false ∧
      motionRun demoSecrets initState [MotionEv.edge 0, MotionEv.edge 2000] = initState ∧
      handledEdges demoSecrets initState [MotionEv.edge 0, MotionEv.edge 2000] = [] := by
  decide

/-- C2, amended.  From the initial state with a 5000 ms cooldown the edges at t=0
and t=2000 are both ignored (the state stays the initial one), because the cooldown
is measured from the initial `lastMotionTime = 0`; the edge at t=5001 is the one
that sets the flag.  For a first edge at any time `T` later than 5000 ms the
scenario runs as written: the edge at `T` sets the flag and records `T`, the edge
at `T + 2000` is ignored (flag and last-trigger time unchanged), and after
`handleMotionEvent` has cleared the flag an edge at `T + 5001` sets it again. -/
theorem C2_cooldown_scenario (cfg : Secrets) (cap : Option Frame) (mallocOk : Bool)
    (code : Int) (T : Nat) :
    pirInterruptHandler (millis 0) initState = initState ∧
    pirInterruptHandler (millis 2000) initState = initState ∧
    (pirInterruptHandler (millis 5001) initState).motionDetected = true ∧
    (pirInterruptHandler (millis 5001) initState).lastMotionTime = 5001 ∧
    (MOTION_COOLDOWN_MS < T → T + 5001 < WORD →
      (pirInterruptHandler (millis T) initState).motionDetected = true ∧
      (pirInterruptHandler (millis T) initState).lastMotionTime = T ∧
      pirInterruptHandler (millis (T + 2000)) (pirInterruptHandler (millis T) initState)
        = pirInterruptHandler (millis T) initState ∧
      (handleMotionEvent cfg cap mallocOk code
        (pirInterruptHandler (millis T) initState)).motionDetected = false ∧
      (pirInterruptHandler (millis (T + 5001)) (handleMotionEvent cfg cap mallocOk code
        (pirInterruptHandler (millis T) initState))).motionDetected = true ∧
      (pirInterruptHandler (millis (T + 5001)) (handleMotionEvent cfg cap mallocOk code
        (pirInterruptHandler (millis T) initState))).lastMotionTime = T + 5001) := by
  refine ⟨by decide, by decide, by decide, by decide, fun hT hW => ?_⟩
  simp only [MOTION_COOLDOWN_MS, WORD] at hT hW
  have e0 : millis T = T := by simp only [millis]; omega
  have e1 : millis (T + 2000) = T + 2000 := by simp only [millis]; omega
  have e2 : millis (T + 5001) = T + 5001 := by simp only [millis]; omega
  have f0 : pirFires T initState = true := by
    simp only [pirFires, sub32, initState, MOTION_COOLDOWN_MS, decide_eq_true_eq]; omega
  have s1 : pirInterruptHandler T initState
      = { initState with motionDetected := true, lastMotionTime := T } :=
    pirInterruptHandler_fires _ _ f0
  have f1 : pirFires (T + 2000) (pirInterruptHandler T initState) = false := by
    rw [s1]
    simp only [pirFires, sub32, MOTION_COOLDOWN_MS, decide_eq_false_iff_not]; omega
  have f2 : pirFires (T + 5001)
      (handleMotionEvent cfg cap mallocOk code (pirInterruptHandler T initState)) = true := by
    simp only [pirFires, handleMotionEvent_lastMotionTime, s1, sub32, MOTION_COOLDOWN_MS,
      decide_eq_true_eq]
    omega
  rw [e0, e1, e2]
  refine ⟨?_, ?_, ?_, ?_, ?_, ?_⟩
  · rw [s1]
  · rw [s1]
  · exact pirInterruptHandler_ignored _ _ f1
  · exact handleMotionEvent_motionDetected _ _ _ _ _
  · rw [pirInterruptHandler_fires _ _ f2]
  · rw [pirInterruptHandler_fires _ _ f2]

/-- Witness for the amended C2 with the first edge at 6000 ms. -/
theorem C2_cooldown_scenario_witness :
    MOTION_COOLDOWN_MS < 6000 ∧ 6000 + 5001 < WORD ∧
    pirInterruptHandler (millis (6000 + 2000)) (pirInterruptHandler (millis 6000) initState)
      = pirInterruptHandler (millis 6000) initState ∧
    (pirInterruptHandler (millis (6000 + 5001)) (handleMotionEvent demoSecrets
      (some demoFrame) true 200
      (pirInterruptHandler (millis 6000) initState))).motionDetected = true :=
  have h := (C2_cooldown_scenario demoSecrets (some demoFrame) true 200 6000).2.2.2.2
    (by decide) (by decide)
  ⟨by decide, by decide, h.2.2.1, h.2.2.2.2.1⟩

/-! ## The multipart body -/

theorem startsWith_append_sep (c : Nat) (b : List Nat) :
    ∀ (pat a : List Nat), c ∉ pat → startsWith pat (a ++ c :: b) = startsWith pat a := by
  intro pat
  induction pat with
  | nil => intro a _; cases a <;> simp [startsWith]
  | cons p ps ih =>
    intro a hc
    simp only [List.mem_cons, not_or] at hc
    cases a with
    | nil =>
      have hpc : (p == c) = false := by simpa using fun h : p = c => hc.1 h.symm
      simp [startsWith, hpc]
    | cons x xs =>
      rw [List.cons_append]
      simp only [startsWith]
      rw [ih xs hc.2]

theorem countOcc_append_sep (pat : List Nat) (c : Nat) (b : List Nat) (hc : c ∉ pat)
    (hne : pat ≠ []) :
    ∀ a : List Nat, countOcc pat (a ++ c :: b) = countOcc pat a + countOcc pat b := by
  intro a
  induction a with
  | nil =>
    have h := startsWith_append_sep c b pat [] hc
    have h0 : startsWith pat [] = false := by
      cases pat with
      | nil => exact absurd rfl hne
      | cons p ps => rfl
    simp only [List.nil_append] at h
    simp [countOcc, h, h0]
  | cons x xs ih =>
    have h := startsWith_append_sep c b pat (x :: xs) hc
    rw [List.cons_append] at h
    rw [List.cons_append]
    simp only [countOcc]
    rw [h, ih]
    omega

theorem ascii_crlf : ascii "\r\n" = crlf := by decide

theorem ascii_deviceId_header :
    ascii "Content-Disposition: form-data; name=\"device_id\"\r\n\r\n"
      = ascii "Content-Disposition: form-data; name=\"device_id\"" ++ crlf ++ crlf := by
  decide

theorem ascii_image_header :
    ascii "Content-Disposition: form-data; name=\"image\"; filename=\"capture.jpg\"\r\n"
      = ascii "Content-Disposition: form-data; name=\"image\"; filename=\"capture.jpg\""
        ++ crlf := by
  decide

theorem ascii_jpeg_header :
    ascii "Content-Type: image/jpeg\r\n\r\n"
      = ascii "Content-Type: image/jpeg" ++ crlf ++ crlf := by
  decide

theorem ascii_crlf_dashes : ascii "\r\n--" = crlf ++ ascii "--" := by decide

theorem ascii_dashes_crlf : ascii "--\r\n" = ascii "--" ++ crlf := by decide

/-- The body the three `memcpy` calls write is the two-part multipart body. -/
theorem uploadBody_eq_multipartBody (deviceId : List Nat) (fb : Frame) :
    uploadBody deviceId fb
      = multipartBody boundary [deviceIdPart deviceId, imagePart fb.buf] := by
  simp only [uploadBody, bodyStart, bodyEnd, multipartBody, renderParts, renderPart,
    renderHeaders, deviceIdPart, imagePart, ascii_crlf, ascii_deviceId_header,
    ascii_image_header, ascii_jpeg_header, ascii_crlf_dashes, ascii_dashes_crlf,
    List.append_assoc, List.append_nil]

theorem bodyStart_split (deviceId : List Nat) :
    bodyStart deviceId
      = headOfFirstPart ++ 10 :: (deviceId ++ 13 :: (headOfSecondPart ++ [10])) := by
  have h1 : (ascii "--" ++ boundary ++ ascii "\r\n")
      ++ ascii "Content-Disposition: form-data; name=\"device_id\"\r\n\r\n"
      = headOfFirstPart ++ [10] := by decide
  have h2 : ascii "\r\n" ++ ((ascii "--" ++ boundary ++ ascii "\r\n")
      ++ (ascii "Content-Disposition: form-data; name=\"image\"; filename=\"capture.jpg\"\r\n"
      ++ ascii "Content-Type: image/jpeg\r\n\r\n")) = 13 :: (headOfSecondPart ++ [10]) := by
    decide
  unfold bodyStart
  rw [h1]
  simp only [List.append_assoc] at h2 ⊢
  rw [h2]
  simp

theorem bodyEnd_split : bodyEnd = 13 :: closingLine := by decide

theorem uploadBody_split (deviceId : List Nat) (fb : Frame) :
    uploadBody deviceId fb
      = headOfFirstPart ++ 10 :: (deviceId ++ 13 :: (headOfSecondPart
          ++ 10 :: (fb.buf ++ 13 :: closingLine))) := by
  simp [uploadBody, bodyStart_split, bodyEnd_split]

theorem lf_not_in_delimiter : 10 ∉ delimiter := by decide

theorem cr_not_in_delimiter : 13 ∉ delimiter := by decide

theorem delimiter_ne_nil : delimiter ≠ [] := by decide

theorem countOcc_headOfFirstPart : countOcc delimiter headOfFirstPart = 1 := by decide

set_option maxRecDepth 4000 in
theorem countOcc_headOfSecondPart : countOcc delimiter headOfSecondPart = 1 := by decide

theorem countOcc_closingLine : countOcc delimiter closingLine = 1 := by decide

theorem countOcc_uploadBody (deviceId : List Nat) (fb : Frame) :
    countOcc delimiter (uploadBody deviceId fb)
      = 3 + countOcc delimiter deviceId + countOcc delimiter fb.buf := by
  rw [uploadBody_split,
    countOcc_append_sep delimiter 10 _ lf_not_in_delimiter delimiter_ne_nil,
    countOcc_append_sep delimiter 13 _ cr_not_in_delimiter delimiter_ne_nil,
    countOcc_append_sep delimiter 10 _ lf_not_in_delimiter delimiter_ne_nil,
    countOcc_append_sep delimiter 13 _ cr_not_in_delimiter delimiter_ne_nil,
    countOcc_headOfFirstPart, countOcc_headOfSecondPart, countOcc_closingLine]
  omega

theorem totalLen_eq_length (deviceId : List Nat) (fb : Frame)
    (hfit : (bodyStart deviceId).length + fb.len + bodyEnd.length < WORD) :
    totalLen deviceId fb = (uploadBody deviceId fb).length := by
  simp only [WORD] at hfit
  simp only [totalLen, add32, uploadBody, Frame.len, List.length_append] at hfit ⊢
  omega

theorem uploadImage_posts_uploadBody (cfg : Secrets) (fb : Frame) (code : Int) (s : State)
    (hw : s.wifiConnected = true)
    (hfit : (bodyStart cfg.DEVICE_ID).length + fb.len + bodyEnd.length < WORD) :
    Call.httpPost (uploadBody cfg.DEVICE_ID fb) code
      ∈ (uploadImage cfg (some fb) true code s).2.calls := by
  have hlen := totalLen_eq_length cfg.DEVICE_ID fb hfit
  unfold uploadImage
  by_cases hp : code > 0
  · by_cases h2 : code = 200 <;> simp [hw, hp, h2, hlen]
  · simp [hw, hp, hlen]

/-- C3. For every device id and every frame, the body `uploadImage` builds
(`bodyStart ++ frame bytes ++ bodyEnd`) is the multipart body with exactly the two
parts `device_id` (carrying the device id) and `image` (header
`Content-Type: image/jpeg`, payload the frame bytes) in this order, and it ends
with the closing boundary `--<boundary>--`; its length is `totalLen` when the
three lengths add up within 32 bits, and then it is the body of the POST that
`uploadImage` issues on a connected link; and when neither the device id nor the
frame contains the delimiter `--<boundary>`, the delimiter occurs exactly three
times in the body. -/
theorem C3_upload_body_is_two_part_multipart (cfg : Secrets) (fb : Frame) (code : Int)
    (s : State) :
    uploadBody cfg.DEVICE_ID fb
        = multipartBody boundary [deviceIdPart cfg.DEVICE_ID, imagePart fb.buf] ∧
      (delimiter ++ ascii "--" ++ crlf) <:+ uploadBody cfg.DEVICE_ID fb ∧
      ((bodyStart cfg.DEVICE_ID).length + fb.len + bodyEnd.length < WORD →
        totalLen cfg.DEVICE_ID fb = (uploadBody cfg.DEVICE_ID fb).length ∧
        (s.wifiConnected = true →
          Call.httpPost (uploadBody cfg.DEVICE_ID fb) code
            ∈ (uploadImage cfg (some fb) true code s).2.calls)) ∧
      (countOcc delimiter cfg.DEVICE_ID = 0 → countOcc delimiter fb.buf = 0 →
        countOcc delimiter (uploadBody cfg.DEVICE_ID fb) = 3) := by
  refine ⟨uploadBody_eq_multipartBody _ _, ?_, ?_, ?_⟩
  · rw [uploadBody_eq_multipartBody]
    refine ⟨renderParts boundary [deviceIdPart cfg.DEVICE_ID, imagePart fb.buf], ?_⟩
    simp [multipartBody, delimiter]
  · intro hfit
    exact ⟨totalLen_eq_length _ _ hfit,
      fun hw => uploadImage_posts_uploadBody cfg fb code s hw hfit⟩
  · intro hd hf
    rw [countOcc_uploadBody, hd, hf]

set_option maxRecDepth 4000 in
/-- Witness for C3: device id `cam1` and a frame of ten bytes. -/
theorem C3_upload_body_is_two_part_multipart_witness :
    demoSecrets.DEVICE_ID = ascii "cam1" ∧ demoFrame.buf.length = 10 ∧
      countOcc delimiter demoSecrets.DEVICE_ID = 0 ∧ countOcc delimiter demoFrame.buf = 0 ∧
      totalLen demoSecrets.DEVICE_ID demoFrame = (uploadBody demoSecrets.DEVICE_ID demoFrame).length ∧
      countOcc delimiter (uploadBody demoSecrets.DEVICE_ID demoFrame) = 3 :=
  have h := C3_upload_body_is_two_part_multipart demoSecrets demoFrame 200
    { initState with wifiConnected := true }
  ⟨by decide, by decide, by decide, by decide, (h.2.2.1 (by decide)).1,
    h.2.2.2 (by decide) (by decide)⟩

/-! ## Frame ownership -/

/-- The calls made by `uploadImage` are appended to the record and none of them is
a camera call. -/
theorem uploadImage_calls (cfg : Secrets) (fb : Option Frame) (mallocOk : Bool)
    (code : Int) (s : State) :
    ∃ extra, (uploadImage cfg fb mallocOk code s).2.calls = s.calls ++ extra ∧
      cameraCalls extra = [] ∧ posts extra ≤ 1 := by
  unfold uploadImage
  cases fb with
  | none => exact ⟨[], by simp, rfl, by simp [posts]⟩
  | some f =>
    by_cases hw : s.wifiConnected = true
    · by_cases hm : mallocOk = true
      · by_cases hp : code > 0
        · by_cases h2 : code = 200
          · exact ⟨_, by simp [hw, hm, h2]; rfl, by simp [cameraCalls, Call.isCamera],
              by simp [posts, Call.isPost]⟩
          · exact ⟨_, by simp [hw, hm, hp, h2]; rfl, by simp [cameraCalls, Call.isCamera],
              by simp [posts, Call.isPost]⟩
        · exact ⟨_, by simp [hw, hm, hp]; rfl, by simp [cameraCalls, Call.isCamera],
            by simp [posts, Call.isPost]⟩
      · exact ⟨_, by simp [hw, hm]; rfl, by simp [cameraCalls, Call.isCamera],
          by simp [posts, Call.isPost]⟩
    · exact ⟨[], by simp [hw], rfl, by simp [posts]⟩

theorem sendStreamFrame_calls (cfg : Secrets) (fb : Option Frame) (code : Int) (s : State) :
    ∃ extra, (sendStreamFrame cfg fb code s).2.calls = s.calls ++ extra ∧
      cameraCalls extra = [] ∧ posts extra ≤ 1 := by
  unfold sendStreamFrame
  cases fb with
  | none => exact ⟨[], by simp, rfl, by simp [posts]⟩
  | some f =>
    by_cases hw : s.wifiConnected = true
    · exact ⟨_, by simp [hw]; rfl, by simp [cameraCalls, Call.isCamera],
        by simp [posts, Call.isPost]⟩
    · exact ⟨[], by simp [hw], rfl, by simp [posts]⟩

theorem cameraCalls_append (a b : List Call) :
    cameraCalls (a ++ b) = cameraCalls a ++ cameraCalls b := by
  simp [cameraCalls]

theorem acquired_cameraCalls (cs : List Call) : acquired (cameraCalls cs) = acquired cs := by
  induction cs with
  | nil => rfl
  | cons c rest ih =>
    simp only [acquired, cameraCalls] at ih ⊢
    cases c with
    | fbGet r => cases r <;> simp [List.filter_cons, List.countP_cons, Call.isCamera, Call.isAcquire, ih]
    | _ => simp [List.filter_cons, List.countP_cons, Call.isCamera, Call.isAcquire, ih]

theorem released_cameraCalls (cs : List Call) : released (cameraCalls cs) = released cs := by
  induction cs with
  | nil => rfl
  | cons c rest ih =>
    simp only [released, cameraCalls] at ih ⊢
    cases c <;> simp [List.filter_cons, List.countP_cons, Call.isCamera, Call.isRelease, ih]

theorem captures_cameraCalls (cs : List Call) : captures (cameraCalls cs) = captures cs := by
  induction cs with
  | nil => rfl
  | cons c rest ih =>
    simp only [captures, cameraCalls] at ih ⊢
    cases c <;> simp [List.filter_cons, List.countP_cons, Call.isCamera, Call.isCapture, ih]

theorem uploadImage_cameraCalls (cfg : Secrets) (fb : Option Frame) (mallocOk : Bool)
    (code : Int) (s : State) :
    cameraCalls (uploadImage cfg fb mallocOk code s).2.calls = cameraCalls s.calls := by
  obtain ⟨extra, h1, h2, _⟩ := uploadImage_calls cfg fb mallocOk code s
  rw [h1, cameraCalls_append, h2, List.append_nil]

theorem sendStreamFrame_cameraCalls (cfg : Secrets) (fb : Option Frame) (code : Int)
    (s : State) :
    cameraCalls (sendStreamFrame cfg fb code s).2.calls = cameraCalls s.calls := by
  obtain ⟨extra, h1, h2, _⟩ := sendStreamFrame_calls cfg fb code s
  rw [h1, cameraCalls_append, h2, List.append_nil]

theorem handleMotionEvent_cameraCalls (cfg : Secrets) (cap : Option Frame) (mallocOk : Bool)
    (code : Int) (s : State) :
    cameraCalls (handleMotionEvent cfg cap mallocOk code s).calls
      = cameraCalls s.calls ++ cameraCallsOf cap := by
  cases cap with
  | none => simp [handleMotionEvent, captureFrame, cameraCalls, cameraCallsOf, Call.isCamera]
  | some f =>
    simp only [handleMotionEvent, captureFrame, releaseFrame, call_calls,
      cameraCalls_append, uploadImage_cameraCalls, cameraCallsOf]
    simp [cameraCalls, Call.isCamera]

theorem handleStreaming_cameraCalls (cfg : Secrets) (now : Nat) (cap : Option Frame)
    (code : Int) (s : State) (h : streamTooEarly now s = false) :
    cameraCalls (handleStreaming cfg now cap code s).calls
      = cameraCalls s.calls ++ cameraCallsOf cap := by
  cases cap with
  | none =>
    simp [handleStreaming, h, captureFrame, cameraCalls, cameraCallsOf, Call.isCamera,
      State.call]
  | some f =>
    simp only [handleStreaming, h, Bool.false_eq_true, if_false, captureFrame, releaseFrame,
      call_calls, cameraCalls_append, sendStreamFrame_cameraCalls, cameraCallsOf]
    simp [cameraCalls, Call.isCamera]

theorem acquired_cameraCallsOf (cap : Option Frame) :
    acquired (cameraCallsOf cap) = if cap.isSome then 1 else 0 := by
  cases cap <;> simp [acquired, cameraCallsOf, Call.isAcquire]

theorem released_cameraCallsOf (cap : Option Frame) :
    released (cameraCallsOf cap) = if cap.isSome then 1 else 0 := by
  cases cap <;> simp [released, cameraCallsOf, Call.isRelease]

theorem counts_of_cameraCalls (before after : List Call) (cap : Option Frame)
    (h : cameraCalls after = cameraCalls before ++ cameraCallsOf cap) :
    acquired after = acquired before + (if cap.isSome then 1 else 0) ∧
      released after = released before + (if cap.isSome then 1 else 0) := by
  constructor
  · rw [← acquired_cameraCalls after, h, ← acquired_cameraCalls before,
      ← acquired_cameraCallsOf cap]
    simp [acquired]
  · rw [← released_cameraCalls after, h, ← released_cameraCalls before,
      ← released_cameraCallsOf cap]
    simp [released]

/-- C4. For every capture outcome and every upload or stream-send outcome, one run
of `handleMotionEvent`, and one run of `handleStreaming` whose interval has
elapsed, adds to the camera calls exactly `fbGet` returning the frame followed by
one `fbReturn` of that frame when capture succeeded, and only the failed `fbGet`
when it did not: one acquisition and one release, or none of either, so the
number of frames held is the same after the handler as before it. -/
theorem C4_frame_released_exactly_once (cfg : Secrets) (capM capS : Option Frame)
    (mallocOk : Bool) (codeM codeS : Int) (now : Nat) (s : State) :
    (cameraCalls (handleMotionEvent cfg capM mallocOk codeM s).calls
        = cameraCalls s.calls ++
          (match capM with
           | some f => [Call.fbGet (some f), Call.fbReturn f]
           | none => [Call.fbGet none]) ∧
      acquired (handleMotionEvent cfg capM mallocOk codeM s).calls
        = acquired s.calls + (if capM.isSome then 1 else 0) ∧
      released (handleMotionEvent cfg capM mallocOk codeM s).calls
        = released s.calls + (if capM.isSome then 1 else 0) ∧
      framesHeld (handleMotionEvent cfg capM mallocOk codeM s).calls = framesHeld s.calls) ∧
    (streamTooEarly now s = false →
      cameraCalls (handleStreaming cfg now capS codeS s).calls
        = cameraCalls s.calls ++
          (match capS with
           | some f => [Call.fbGet (some f), Call.fbReturn f]
           | none => [Call.fbGet none]) ∧
      acquired (handleStreaming cfg now capS codeS s).calls
        = acquired s.calls + (if capS.isSome then 1 else 0) ∧
      released (handleStreaming cfg now capS codeS s).calls
        = released s.calls + (if capS.isSome then 1 else 0) ∧
      framesHeld (handleStreaming cfg now capS codeS s).calls = framesHeld s.calls) := by
  have hm := handleMotionEvent_cameraCalls cfg capM mallocOk codeM s
  obtain ⟨ma, mr⟩ := counts_of_cameraCalls _ _ _ hm
  refine ⟨⟨hm, ma, mr, ?_⟩, fun helapsed => ?_⟩
  · simp only [framesHeld, ma, mr]; push_cast; omega
  · have hs := handleStreaming_cameraCalls cfg now capS codeS s helapsed
    obtain ⟨sa, sr⟩ := counts_of_cameraCalls _ _ _ hs
    refine ⟨hs, sa, sr, ?_⟩
    simp only [framesHeld, sa, sr]; push_cast; omega

/-- Witness for C4: a capture that succeeds with an upload that fails (HTTP 500),
and a stream capture that fails, 100 ms after boot. -/
theorem C4_frame_released_exactly_once_witness :
    streamTooEarly 100 { initState with wifiConnected := true } = false ∧
      released (handleMotionEvent demoSecrets (some demoFrame) true 500
        { initState with wifiConnected := true }).calls = 1 ∧
      released (handleStreaming demoSecrets 100 none 200
        { initState with wifiConnected := true }).calls = 0 :=
  have h := C4_frame_released_exactly_once demoSecrets (some demoFrame) none true 500 200 100
    { initState with wifiConnected := true }
  ⟨by decide, h.1.2.2.1, (h.2 (by decide)).2.2.1⟩

/-! ## Transport client -/

/-- C6. With the link state Disconnected (`wifiConnected` false), for every frame
(null or not) `uploadImage` and `sendStreamFrame` return false and leave the state,
the record of device calls included, as it was: no `http.begin`, no `POST`, no
`malloc`. -/
theorem C6_disconnected_no_network_call (cfg : Secrets) (fb : Option Frame) (mallocOk : Bool)
    (code : Int) (s : State) (hdown : s.wifiConnected = false) :
    uploadImage cfg fb mallocOk code s = (false, s) ∧
      sendStreamFrame cfg fb code s = (false, s) := by
  cases fb <;> simp [uploadImage, sendStreamFrame, hdown]

/-- Witness for C6: the initial state (link down) and a ten-byte frame. -/
theorem C6_disconnected_no_network_call_witness :
    initState.wifiConnected = false ∧
      uploadImage demoSecrets (some demoFrame) true 200 initState = (false, initState) ∧
      sendStreamFrame demoSecrets (some demoFrame) 200 initState = (false, initState) :=
  ⟨rfl, C6_disconnected_no_network_call demoSecrets (some demoFrame) true 200 initState rfl⟩

theorem uploadImage_result (cfg : Secrets) (f : Frame) (code : Int) (s : State)
    (hup : s.wifiConnected = true) :
    ((uploadImage cfg (some f) true code s).1 = true ↔ code = 200) ∧
      posts (uploadImage cfg (some f) true code s).2.calls = posts s.calls + 1 := by
  unfold uploadImage
  by_cases hp : code > 0
  · by_cases h2 : code = 200 <;> simp [hup, hp, h2, posts, Call.isPost, List.countP_cons]
  · have h2 : code ≠ 200 := by omega
    simp [hup, hp, h2, posts, Call.isPost, List.countP_cons]

theorem sendStreamFrame_result (cfg : Secrets) (f : Frame) (code : Int) (s : State)
    (hup : s.wifiConnected = true) :
    ((sendStreamFrame cfg (some f) code s).1 = true ↔ code = 200) ∧
      posts (sendStreamFrame cfg (some f) code s).2.calls = posts s.calls + 1 := by
  simp [sendStreamFrame, hup, posts, Call.isPost, List.countP_cons]

/-- C7. With the link connected and the request buffer allocated, for every frame
and every response code the transport returns, `uploadImage` returns true exactly
when the code is 200, and so does `sendStreamFrame`; a zero or negative code
(transport error, timeout) yields false; each call issues exactly one POST. -/
theorem C7_success_iff_http_200 (cfg : Secrets) (f : Frame) (code : Int) (s : State)
    (hup : s.wifiConnected = true) :
    ((uploadImage cfg (some f) true code s).1 = true ↔ code = 200) ∧
      ((sendStreamFrame cfg (some f) code s).1 = true ↔ code = 200) ∧
      (code ≤ 0 → (uploadImage cfg (some f) true code s).1 = false ∧
        (sendStreamFrame cfg (some f) code s).1 = false) ∧
      posts (uploadImage cfg (some f) true code s).2.calls = posts s.calls + 1 ∧
      posts (sendStreamFrame cfg (some f) code s).2.calls = posts s.calls + 1 := by
  obtain ⟨u1, u2⟩ := uploadImage_result cfg f code s hup
  obtain ⟨v1, v2⟩ := sendStreamFrame_result cfg f code s hup
  refine ⟨u1, v1, fun hle => ?_, u2, v2⟩
  have hne : code ≠ 200 := by omega
  constructor
  · cases hb : (uploadImage cfg (some f) true code s).1
    · rfl
    · exact absurd (u1.mp hb) hne
  · cases hb : (sendStreamFrame cfg (some f) code s).1
    · rfl
    · exact absurd (v1.mp hb) hne

/-- Witness for C7: a connected link and the response code 404. -/
theorem C7_success_iff_http_200_witness :
    ({ initState with wifiConnected := true } : State).wifiConnected = true ∧
      ((uploadImage demoSecrets (some demoFrame) true 404
        { initState with wifiConnected := true }).1 = true ↔ (404 : Int) = 200) :=
  ⟨rfl, (C7_success_iff_http_200 demoSecrets demoFrame 404
    { initState with wifiConnected := true } rfl).1⟩

/-! ## Streaming handler -/

theorem handleStreaming_early (cfg : Secrets) (now : Nat) (cap : Option Frame) (code : Int)
    (s : State) (h : streamTooEarly now s = true) :
    handleStreaming cfg now cap code s = s := by
  simp [handleStreaming, h]

theorem handleStreaming_sameGlobals (cfg : Secrets) (now : Nat) (cap : Option Frame)
    (code : Int) (s : State) :
    (handleStreaming cfg now cap code s).motionDetected = s.motionDetected ∧
      (handleStreaming cfg now cap code s).lastMotionTime = s.lastMotionTime ∧
      (handleStreaming cfg now cap code s).wifiConnected = s.wifiConnected := by
  by_cases h : streamTooEarly now s = true
  · simp [handleStreaming_early _ _ _ _ _ h]
  · have h' : streamTooEarly now s = false := by simpa using h
    cases cap with
    | none => simp [handleStreaming, h', captureFrame]
    | some f =>
      have hg := sendStreamFrame_sameGlobals cfg (some f) code
        (({ s with lastStreamTime := now } : State).call (Call.fbGet (some f)))
      simp only [SameGlobals, call_motionDetected, call_lastMotionTime,
        call_wifiConnected] at hg
      simp only [handleStreaming, h', Bool.false_eq_true, if_false, captureFrame,
        releaseFrame, call_motionDetected, call_lastMotionTime, call_wifiConnected]
      exact ⟨hg.1, hg.2.1, hg.2.2.2.2⟩

theorem handleStreaming_attempt (cfg : Secrets) (now : Nat) (cap : Option Frame) (code : Int)
    (s : State) (h : streamTooEarly now s = false) :
    (handleStreaming cfg now cap code s).lastStreamTime = now := by
  cases cap with
  | none => simp [handleStreaming, h, captureFrame]
  | some f =>
    have hg := sendStreamFrame_sameGlobals cfg (some f) code
      (({ s with lastStreamTime := now } : State).call (Call.fbGet (some f)))
    simp only [SameGlobals, call_lastStreamTime] at hg
    simp only [handleStreaming, h, Bool.false_eq_true, if_false, captureFrame,
      releaseFrame, call_lastStreamTime]
    exact hg.2.2.2.1

theorem streamTooEarly_gap (t T : Nat) (s : State) (hs : s.lastStreamTime = millis T)
    (hT : T ≤ t) (h : streamTooEarly (millis t) s = false) : T + 100 ≤ t := by
  simp only [streamTooEarly, sub32, millis, STREAM_INTERVAL_MS, hs,
    decide_eq_false_iff_not] at h
  omega

theorem streamTooEarly_within (t T : Nat) (s : State) (hs : s.lastStreamTime = millis T)
    (hT : T ≤ t) (h : t < T + 100) : streamTooEarly (millis t) s = true := by
  simp only [streamTooEarly, sub32, millis, STREAM_INTERVAL_MS, hs, decide_eq_true_eq]
  omega

theorem streamAttempts_spaced (cfg : Secrets) :
    ∀ (cs : List StreamCall) (s : State) (T : Nat), s.lastStreamTime = millis T →
      (∀ c ∈ cs, T ≤ c.t) → cs.Pairwise (fun a b => a.t ≤ b.t) →
      (∀ a ∈ streamAttempts cfg s cs, T + 100 ≤ a) ∧
        (streamAttempts cfg s cs).Pairwise (fun a b => a + 100 ≤ b) := by
  intro cs
  induction cs with
  | nil => intro s T _ _ _; simp [streamAttempts]
  | cons c rest ih =>
    intro s T hs hge hsorted
    simp only [List.pairwise_cons, List.mem_cons, forall_eq_or_imp] at hge hsorted
    by_cases hf : streamTooEarly (millis c.t) s = true
    · have hnext : (handleStreaming cfg (millis c.t) c.cap c.code s).lastStreamTime
          = millis T := by
        rw [handleStreaming_early _ _ _ _ _ hf, hs]
      obtain ⟨h1, h2⟩ := ih _ T hnext hge.2 hsorted.2
      simp only [streamAttempts, hf, if_true]
      exact ⟨h1, h2⟩
    · have hf' : streamTooEarly (millis c.t) s = false := by simpa using hf
      have hgap := streamTooEarly_gap c.t T s hs hge.1 hf'
      have hnext := handleStreaming_attempt cfg (millis c.t) c.cap c.code s hf'
      obtain ⟨h1, h2⟩ := ih _ c.t hnext hsorted.1 hsorted.2
      simp only [streamAttempts, hf', Bool.false_eq_true, if_false, List.mem_cons,
        forall_eq_or_imp, List.pairwise_cons]
      refine ⟨⟨hgap, fun a ha => ?_⟩, h1, h2⟩
      have := h1 a ha
      omega

/-- C9. From the initial value `lastStreamTime = 0`, for every sequence of
`handleStreaming` calls with non-decreasing clock values (read as a 32-bit
millisecond counter), whatever the capture and send outcomes: any two capture/send
attempts start at least `STREAM_INTERVAL_MS` apart.  A call made at a time `t` less
than the interval after the time `T` of the last attempt leaves the state as it
was, the record of device calls included (nothing captured).  Every attempt sets
`lastStreamTime` to the clock reading of that call, whether or not the capture or
the send succeeded. -/
theorem C9_stream_interval_and_resync (cfg : Secrets) (cs : List StreamCall) (s s1 : State)
    (t T now : Nat) (cap : Option Frame) (code : Int) :
    (s.lastStreamTime = 0 → cs.Pairwise (fun a b => a.t ≤ b.t) →
      (streamAttempts cfg s cs).Pairwise (fun a b => a + STREAM_INTERVAL_MS ≤ b)) ∧
    (s1.lastStreamTime = millis T → T ≤ t → t < T + STREAM_INTERVAL_MS →
      handleStreaming cfg (millis t) cap code s1 = s1) ∧
    (streamTooEarly now s1 = false →
      (handleStreaming cfg now cap code s1).lastStreamTime = now) := by
  refine ⟨fun hinit hsorted => ?_, fun hlast hTt hearly => ?_,
    fun hdue => handleStreaming_attempt cfg now cap code s1 hdue⟩
  · have h := streamAttempts_spaced cfg cs s 0 (by simp [hinit, millis])
      (fun c _ => Nat.zero_le c.t) hsorted
    simpa [STREAM_INTERVAL_MS] using h.2
  · exact handleStreaming_early _ _ _ _ _
      (streamTooEarly_within t T s1 hlast hTt (by simpa [STREAM_INTERVAL_MS] using hearly))

/-- Witness for C9: calls at 0, 50, 100, 150 and 230 ms from the initial state; a
state whose last attempt was at 1000 ms, called again at 1050 ms and at 1100 ms. -/
theorem C9_stream_interval_and_resync_witness :
    (streamAttempts demoSecrets initState
        [⟨0, none, 200⟩, ⟨50, none, 200⟩, ⟨100, some demoFrame, 500⟩, ⟨150, none, 200⟩,
          ⟨230, some demoFrame, 200⟩]).Pairwise (fun a b => a + STREAM_INTERVAL_MS ≤ b) ∧
      handleStreaming demoSecrets (millis 1050) (some demoFrame) 500
          { initState with lastStreamTime := 1000 }
        = { initState with lastStreamTime := 1000 } ∧
      (handleStreaming demoSecrets 1100 (some demoFrame) 500
          { initState with lastStreamTime := 1000 }).lastStreamTime = 1100 :=
  have h := C9_stream_interval_and_resync demoSecrets
    [⟨0, none, 200⟩, ⟨50, none, 200⟩, ⟨100, some demoFrame, 500⟩, ⟨150, none, 200⟩,
      ⟨230, some demoFrame, 200⟩]
    initState { initState with lastStreamTime := 1000 } 1050 1000 1100 (some demoFrame) 500
  ⟨h.1 rfl (by decide), h.2.1 (by decide) (by decide) (by decide), h.2.2 (by decide)⟩

/-! ## The connect loop returns -/

/-- The wait loop of `connectWiFi` ends: `delay(500)` moves the clock on, so after
`k` rounds the elapsed time is `500 * k`, and the bound on the number of tests is
not reached when it allows for `timeout / 500` rounds. -/
theorem connectWait_returns (radio : Nat → Bool) (timeout c0 : Nat) :
    ∀ (fuel k : Nat) (w : World), w.clock = c0 + 500 * k → 1 ≤ fuel →
      timeout ≤ 500 * (k + fuel - 1) → 500 * k < timeout + 500 → timeout + 500 ≤ WORD →
      ∃ w1, connectWait radio timeout (millis c0) fuel w = some w1 ∧
        w1.st.wifiConnected = w.st.wifiConnected ∧
        w1.st.motionDetected = w.st.motionDetected := by
  intro fuel
  induction fuel with
  | zero => intro k w _ h1; omega
  | succ n ih =>
    intro k w hclock _ hfuel hk hword
    simp only [WORD] at hword
    by_cases hc : radio w.polls = true
    · exact ⟨{ w with polls := w.polls + 1 }, by simp [connectWait, hc], rfl, rfl⟩
    · by_cases ht : sub32 (millis w.clock) (millis c0) < timeout
      · have hlt : 500 * k < timeout := by
          simp only [sub32, millis, hclock] at ht
          omega
        obtain ⟨w1, e1, e2, e3⟩ := ih (k + 1) (({ w with polls := w.polls + 1 } : World).delay 500)
          (by simp only [World.delay, hclock]; omega) (by omega) (by omega) (by omega)
          (by simp only [WORD]; omega)
        refine ⟨w1, ?_, ?_, ?_⟩
        · simp only [connectWait, hc, ht, Bool.not_false, decide_True, Bool.and_self, if_true]
          exact e1
        · rw [e2]; rfl
        · rw [e3]; rfl
      · exact ⟨{ w with polls := w.polls + 1 }, by simp [connectWait, hc, ht], rfl, rfl⟩

theorem blink_motionDetected : ∀ (n : Nat) (w : World),
    (blink n w).st.motionDetected = w.st.motionDetected := by
  intro n
  induction n with
  | zero => intro w; rfl
  | succ n ih => intro w; rw [blink, ih]; rfl

theorem connectWiFi_returns (fuel : Nat) (radio : Nat → Bool) (cfg : Secrets) (w : World)
    (hfuel : cfg.WIFI_TIMEOUT_MS + 500 ≤ 500 * fuel) (hword : cfg.WIFI_TIMEOUT_MS + 500 ≤ WORD) :
    ∃ w1, connectWiFi fuel radio cfg w = some w1 ∧
      w1.st.motionDetected = w.st.motionDetected := by
  obtain ⟨w2, e1, _, e3⟩ := connectWait_returns radio cfg.WIFI_TIMEOUT_MS w.clock fuel 0
    { w with st := w.st.call Call.wifiBegin } (by simp) (by omega) (by omega) (by omega) hword
  by_cases hc : radio w2.polls = true
  · refine ⟨_, by simp only [connectWiFi, e1, hc, if_true]; rfl, ?_⟩
    rw [blink_motionDetected]
    exact e3
  · refine ⟨_, by simp only [connectWiFi, e1, hc, Bool.false_eq_true, if_false]; rfl, ?_⟩
    exact e3

theorem checkWiFi_returns (fuel : Nat) (radio : Nat → Bool) (cfg : Secrets) (w : World)
    (hfuel : cfg.WIFI_TIMEOUT_MS + 500 ≤ 500 * fuel) (hword : cfg.WIFI_TIMEOUT_MS + 500 ≤ WORD) :
    ∃ w1, checkWiFi fuel radio cfg w = some w1 ∧
      w1.st.motionDetected = w.st.motionDetected := by
  by_cases hc : radio w.polls = true
  · exact ⟨{ w with polls := w.polls + 1 }, by simp [checkWiFi, hc], rfl⟩
  · by_cases hw : w.st.wifiConnected = true
    · obtain ⟨w1, e1, e2⟩ := connectWiFi_returns fuel radio cfg
        { st := { w.st with wifiConnected := false }, clock := w.clock, polls := w.polls + 1 }
        hfuel hword
      exact ⟨w1, by simp [checkWiFi, hc, hw, e1], e2⟩
    · obtain ⟨w1, e1, e2⟩ := connectWiFi_returns fuel radio cfg
        { w with polls := w.polls + 1 } hfuel hword
      exact ⟨w1, by simp [checkWiFi, hc, hw, e1], e2⟩

/-! ## Motion handling completes -/

/-- C8. For every capture outcome and every upload outcome (buffer allocated or
not, any response code), `motionDetected` is false when `handleMotionEvent`
returns.  In `loop()`: with a WiFi timeout that fits the 32-bit clock (and a bound
on the connect loop that allows for the timeout), every iteration returns, and
when the link check leaves the flag set and the link up, the flag is cleared when
the iteration returns. -/
theorem C8_motion_flag_cleared (cfg : Secrets) (cap : Option Frame) (mallocOk : Bool)
    (code : Int) (s : State) (fuel : Nat) (radio : Nat → Bool) (inp : LoopIn) (w : World) :
    (handleMotionEvent cfg cap mallocOk code s).motionDetected = false ∧
      (cfg.WIFI_TIMEOUT_MS + 500 ≤ WORD → cfg.WIFI_TIMEOUT_MS + 500 ≤ 500 * fuel →
        ∃ w1 w2, checkWiFi fuel radio cfg w = some w1 ∧
          loop fuel radio cfg inp w = some w2 ∧
          (w1.st.motionDetected = true → w1.st.wifiConnected = true →
            w2.st.motionDetected = false)) := by
  refine ⟨handleMotionEvent_motionDetected cfg cap mallocOk code s, ?_⟩
  intro hword hfuel
  obtain ⟨w1, hcheck, _⟩ := checkWiFi_returns fuel radio cfg w hfuel hword
  have hm := handleMotionEvent_motionDetected cfg inp.motionCap inp.motionMalloc
    inp.motionCode w1.st
  refine ⟨w1, _, hcheck, by simp only [loop, hcheck]; rfl, ?_⟩
  intro hflag hlink
  simp only [hflag, hlink, Bool.and_self, if_true, World.delay, call_motionDetected]
  split
  · exact (handleStreaming_sameGlobals cfg _ _ _ _).1.trans hm
  · exact hm

/-- Witness for C8: the flag set and the link up at 6000 ms, the capture failing. -/
theorem C8_motion_flag_cleared_witness :
    demoSecrets.WIFI_TIMEOUT_MS + 500 ≤ WORD ∧ demoSecrets.WIFI_TIMEOUT_MS + 500 ≤ 500 * 30 ∧
    (handleMotionEvent demoSecrets none true 200
        { initState with motionDetected := true, wifiConnected := true }).motionDetected = false ∧
    ∃ w1 w2, checkWiFi 30 (fun _ => true) demoSecrets
          { st := { initState with motionDetected := true, wifiConnected := true },
            clock := 6000, polls := 0 } = some w1 ∧
        loop 30 (fun _ => true) demoSecrets ⟨none, true, 200, none, 200⟩
          { st := { initState with motionDetected := true, wifiConnected := true },
            clock := 6000, polls := 0 } = some w2 ∧
        (w1.st.motionDetected = true → w1.st.wifiConnected = true →
          w2.st.motionDetected = false) :=
  have h := C8_motion_flag_cleared demoSecrets none true 200
    { initState with motionDetected := true, wifiConnected := true } 30 (fun _ => true)
    ⟨none, true, 200, none, 200⟩
    { st := { initState with motionDetected := true, wifiConnected := true },
      clock := 6000, polls := 0 }
  ⟨by decide, by decide, h.1, h.2 (by decide) (by decide)⟩

/-! ## Link state -/

set_option maxRecDepth 100000 in
/-- C5 fails on the code.  After `setup()` with the radio connected, one iteration
of `loop()` finds the radio down, the reconnect times out and `wifiConnected`
becomes false.  In the next iteration the radio reports Connected at the poll of
`checkWiFi`, yet `checkWiFi` leaves `wifiConnected` false and attempts no
reconnect; the pending motion event is not handled and nothing is streamed: the
iteration makes no device call but the closing `delay(10)`. -/
theorem C5_link_state_stale_after_failed_reconnect :
    ∃ w1 w2 w3 w4 : World,
      setup 30 staleRadio demoSecrets true none = Boot.running w1 ∧
      w1.st.wifiConnected = true ∧
      loop 30 staleRadio demoSecrets quietLoop w1 = some w2 ∧
      w2.st.wifiConnected = false ∧
      w2.polls = 25 ∧ w2.clock = 11610 ∧
      w2.edge.st.motionDetected = true ∧
      staleRadio w2.edge.polls = true ∧
      checkWiFi 30 staleRadio demoSecrets w2.edge = some w3 ∧
      w3.st.wifiConnected = false ∧
      w3.st.calls = w2.st.calls ∧
      loop 30 staleRadio demoSecrets quietLoop w2.edge = some w4 ∧
      w4.st.motionDetected = true ∧
      w4.st.wifiConnected = false ∧
      w4.st.calls = w2.st.calls ++ [Call.delay 10] := by
  refine ⟨_, _, _, _, rfl, ?_, rfl, ?_, ?_, ?_, ?_, ?_, rfl, ?_, ?_, rfl, ?_, ?_, ?_⟩ <;> decide

/-! ## The motion cycle under interrupts -/

theorem runCycle_done (cfg : Secrets) (cap : Option Frame) (mallocOk : Bool) (code : Int)
    (sched : List (Option Nat)) (c : Cycle) (h : c.pc = Pc.done) :
    runCycle cfg cap mallocOk code sched c = c := by
  cases sched <;> simp [runCycle, h]

theorem runCycle_append (cfg : Secrets) (cap : Option Frame) (mallocOk : Bool) (code : Int) :
    ∀ (a b : List (Option Nat)) (c : Cycle),
      runCycle cfg cap mallocOk code (a ++ b) c
        = runCycle cfg cap mallocOk code b (runCycle cfg cap mallocOk code a c) := by
  intro a
  induction a with
  | nil => intro b c; rfl
  | cons ev rest ih =>
    intro b c
    by_cases hd : c.pc = Pc.done
    · simp [runCycle, hd, runCycle_done]
    · cases ev <;> simp [runCycle, hd, ih]

theorem pirInterruptHandler_calls (now : Nat) (s : State) :
    (pirInterruptHandler now s).calls = s.calls := by
  unfold pirInterruptHandler
  split <;> rfl

theorem uploadImage_captures (cfg : Secrets) (fb : Option Frame) (mallocOk : Bool)
    (code : Int) (s : State) :
    captures (uploadImage cfg fb mallocOk code s).2.calls = captures s.calls := by
  rw [← captures_cameraCalls, uploadImage_cameraCalls, captures_cameraCalls]

theorem captures_append (a b : List Call) : captures (a ++ b) = captures a + captures b := by
  simp [captures]

/-- The interrupt handler commutes with `uploadImage`: an edge that arrives while
the upload is in progress has the effect of one arriving just before or just
after it, so the upload is one statement of the cycle. -/
theorem uploadImage_pirInterruptHandler (cfg : Secrets) (fb : Option Frame) (mallocOk : Bool)
    (code : Int) (now : Nat) (s : State) :
    (uploadImage cfg fb mallocOk code (pirInterruptHandler now s)).2
      = pirInterruptHandler now (uploadImage cfg fb mallocOk code s).2 := by
  have hg := (uploadImage_sameGlobals cfg fb mallocOk code s).2.1
  have hf : pirFires now (uploadImage cfg fb mallocOk code s).2 = pirFires now s := by
    simp only [pirFires, hg]
  unfold pirInterruptHandler
  rw [hf]
  by_cases h : pirFires now s = true
  · simp only [h, if_true]
    unfold uploadImage
    cases fb with
    | none => rfl
    | some f =>
      by_cases hw : s.wifiConnected = true
      · by_cases hm : mallocOk = true
        · by_cases hp : code > 0
          · by_cases h2 : code = 200 <;> simp [hw, hm, hp, h2, State.call]
          · simp [hw, hm, hp, State.call]
        · simp [hw, hm, State.call]
      · simp [hw]
  · simp [h]

/-- Inside `handleMotionEvent` a statement never leads back to the test, and the
only statement that ends the cycle is the reset of the flag. -/
theorem motionStmt_inside (cfg : Secrets) (cap : Option Frame) (mallocOk : Bool) (code : Int)
    (c : Cycle) (h1 : c.pc ≠ Pc.test) (h2 : c.pc ≠ Pc.done) :
    (motionStmt cfg cap mallocOk code c).pc ≠ Pc.test ∧
      ((motionStmt cfg cap mallocOk code c).pc = Pc.done →
        (motionStmt cfg cap mallocOk code c).st.motionDetected = false) := by
  obtain ⟨pc, fb, st⟩ := c
  cases pc with
  | test => exact absurd rfl h1
  | done => exact absurd rfl h2
  | capture => cases cap <;> simp [motionStmt, captureFrame]
  | _ => simp [motionStmt]

theorem runCycle_flag_cleared (cfg : Secrets) (cap : Option Frame) (mallocOk : Bool)
    (code : Int) :
    ∀ (sched : List (Option Nat)) (c : Cycle), c.pc ≠ Pc.test →
      (c.pc = Pc.done → c.st.motionDetected = false) →
      (runCycle cfg cap mallocOk code sched c).pc = Pc.done →
      (runCycle cfg cap mallocOk code sched c).st.motionDetected = false := by
  intro sched
  induction sched with
  | nil => intro c _ h2 h3; exact h2 h3
  | cons ev rest ih =>
    intro c h1 h2 h3
    by_cases hd : c.pc = Pc.done
    · rw [runCycle_done _ _ _ _ _ _ hd]; exact h2 hd
    · cases ev with
      | none =>
        obtain ⟨k1, k2⟩ := motionStmt_inside cfg cap mallocOk code c h1 hd
        simp only [runCycle, hd, if_false] at h3 ⊢
        exact ih _ k1 k2 h3
      | some now =>
        simp only [runCycle, hd, if_false] at h3 ⊢
        exact ih _ h1 (fun h => absurd h hd) h3

/-- Past the capture statement no statement captures. -/
theorem motionStmt_past_capture (cfg : Secrets) (cap : Option Frame) (mallocOk : Bool)
    (code : Int) (c : Cycle) (h : captureAhead c.pc = false) :
    captureAhead (motionStmt cfg cap mallocOk code c).pc = false ∧
      captures (motionStmt cfg cap mallocOk code c).st.calls = captures c.st.calls := by
  obtain ⟨pc, fb, st⟩ := c
  cases pc with
  | test => simp [captureAhead] at h
  | ledOn => simp [captureAhead] at h
  | capture => simp [captureAhead] at h
  | upload => simp [motionStmt, captureAhead, uploadImage_captures]
  | release =>
    cases fb <;> simp [motionStmt, captureAhead, releaseFrame, captures, Call.isCapture]
  | ledOff => simp [motionStmt, captureAhead, captures, Call.isCapture]
  | reset => simp [motionStmt, captureAhead]
  | done => simp [motionStmt, captureAhead]

theorem runCycle_past_capture (cfg : Secrets) (cap : Option Frame) (mallocOk : Bool)
    (code : Int) :
    ∀ (sched : List (Option Nat)) (c : Cycle), captureAhead c.pc = false →
      captures (runCycle cfg cap mallocOk code sched c).st.calls = captures c.st.calls := by
  intro sched
  induction sched with
  | nil => intro c _; rfl
  | cons ev rest ih =>
    intro c h
    by_cases hd : c.pc = Pc.done
    · rw [runCycle_done _ _ _ _ _ _ hd]
    · cases ev with
      | none =>
        obtain ⟨k1, k2⟩ := motionStmt_past_capture cfg cap mallocOk code c h
        simp only [runCycle, hd, if_false]
        rw [ih _ k1, k2]
      | some now =>
        simp only [runCycle, hd, if_false]
        rw [ih { c with st := pirInterruptHandler now c.st } h, pirInterruptHandler_calls]

theorem runCycle_before_capture (cfg : Secrets) (cap : Option Frame) (mallocOk : Bool)
    (code : Int) :
    ∀ (sched : List (Option Nat)) (c : Cycle), c.pc = Pc.ledOn ∨ c.pc = Pc.capture →
      (runCycle cfg cap mallocOk code sched c).pc = Pc.done →
      captures (runCycle cfg cap mallocOk code sched c).st.calls = captures c.st.calls + 1 := by
  intro sched
  induction sched with
  | nil =>
    intro c h hend
    simp only [runCycle] at hend
    rcases h with h | h <;> rw [h] at hend <;> exact absurd hend (by decide)
  | cons ev rest ih =>
    intro c h hend
    have hd : c.pc ≠ Pc.done := by rcases h with h | h <;> rw [h] <;> decide
    cases ev with
    | some now =>
      simp only [runCycle, hd, if_false] at hend ⊢
      rw [ih { c with st := pirInterruptHandler now c.st } h hend, pirInterruptHandler_calls]
    | none =>
      simp only [runCycle, hd, if_false] at hend ⊢
      obtain ⟨pc, fb, st⟩ := c
      rcases h with h | h
      · simp only at h
        subst h
        have := ih (motionStmt cfg cap mallocOk code ⟨Pc.ledOn, fb, st⟩)
          (Or.inr (by simp [motionStmt])) hend
        rw [this]
        simp [motionStmt, captures, Call.isCapture]
      · simp only at h
        subst h
        rw [runCycle_past_capture]
        · cases cap <;> simp [motionStmt, captureFrame, captures, Call.isCapture]
        · cases cap <;> simp [motionStmt, captureFrame, captureAhead]

/-- C10, as stated, fails.  The loop tests the flag, switches the LED on, captures
and uploads; then an edge at 12000 ms is accepted (it sets `motionDetected` and
`lastMotionTime`), after the capture and before the reset; the cycle releases the
frame, switches the LED off and resets the flag.  No capture follows the edge and
`motionDetected` is false when the cycle ends. -/
theorem C10_edge_after_capture_is_dropped :
    (runCycle demoSecrets (some demoFrame) true 200 [none, none, none, none]
        pendingCycle).pc = Pc.release ∧
      captureAhead (runCycle demoSecrets (some demoFrame) true 200 [none, none, none, none]
        pendingCycle).pc = false ∧
      pirFires 12000 (runCycle demoSecrets (some demoFrame) true 200 [none, none, none, none]
        pendingCycle).st = true ∧
      (runCycle demoSecrets (some demoFrame) true 200
        [none, none, none, none, some 12000] pendingCycle).st.motionDetected = true ∧
      (runCycle demoSecrets (some demoFrame) true 200
        [none, none, none, none, some 12000, none, none, none] pendingCycle).pc = Pc.done ∧
      (runCycle demoSecrets (some demoFrame) true 200
        [none, none, none, none, some 12000, none, none, none] pendingCycle).st.motionDetected
        = false ∧
      (runCycle demoSecrets (some demoFrame) true 200
        [none, none, none, none, some 12000, none, none, none] pendingCycle).st.lastMotionTime
        = 12000 ∧
      captures (runCycle demoSecrets (some demoFrame) true 200
        [none, none, none, none, some 12000, none, none, none] pendingCycle).st.calls
        = captures (runCycle demoSecrets (some demoFrame) true 200 [none, none, none, none]
            pendingCycle).st.calls := by
  decide

/-- C10, amended.  With the interrupt handler allowed to run between any two
statements of the motion cycle: an edge that `pirInterruptHandler` accepts after
the loop has tested `motionDetected` and before `handleMotionEvent` resets it sets
the flag and records its time, and the reset at the end of the cycle clears the
flag all the same, so `motionDetected` is false when the cycle ends, for every
interleaving.  The capture of the cycle happens after the edge exactly when the
edge arrives before the capture statement; an edge that arrives later is followed
by no capture in that cycle. -/
theorem C10_edge_during_cycle_is_collapsed (cfg : Secrets) (cap : Option Frame)
    (mallocOk : Bool) (code : Int) (before after : List (Option Nat)) (t : Nat) (c0 : Cycle)
    (htested : (runCycle cfg cap mallocOk code before c0).pc ≠ Pc.test)
    (hnotreset : (runCycle cfg cap mallocOk code before c0).pc ≠ Pc.done)
    (haccept : pirFires t (runCycle cfg cap mallocOk code before c0).st = true)
    (hend : (runCycle cfg cap mallocOk code (before ++ some t :: after) c0).pc = Pc.done) :
    (runCycle cfg cap mallocOk code (before ++ [some t]) c0).st.motionDetected = true ∧
      (runCycle cfg cap mallocOk code (before ++ [some t]) c0).st.lastMotionTime = t ∧
      (runCycle cfg cap mallocOk code (before ++ some t :: after) c0).st.motionDetected
        = false ∧
      captures (runCycle cfg cap mallocOk code (before ++ some t :: after) c0).st.calls
        = captures (runCycle cfg cap mallocOk code before c0).st.calls
          + (if captureAhead (runCycle cfg cap mallocOk code before c0).pc then 1 else 0) := by
  have hstep : ∀ rest, runCycle cfg cap mallocOk code (before ++ some t :: rest) c0
      = runCycle cfg cap mallocOk code rest
          { runCycle cfg cap mallocOk code before c0 with
            st := pirInterruptHandler t (runCycle cfg cap mallocOk code before c0).st } := by
    intro rest
    rw [runCycle_append]
    simp only [runCycle, hnotreset, if_false]
  rw [hstep after] at hend
  rw [hstep [], hstep after]
  clear hstep
  generalize runCycle cfg cap mallocOk code before c0 = c1 at htested hnotreset haccept hend ⊢
  have hcalls : ({ c1 with st := pirInterruptHandler t c1.st } : Cycle).st.calls = c1.st.calls :=
    pirInterruptHandler_calls t c1.st
  refine ⟨?_, ?_, ?_, ?_⟩
  · simp [runCycle, pirInterruptHandler_fires _ _ haccept]
  · simp [runCycle, pirInterruptHandler_fires _ _ haccept]
  · exact runCycle_flag_cleared cfg cap mallocOk code after
      { c1 with st := pirInterruptHandler t c1.st } htested (fun h => absurd h hnotreset) hend
  · by_cases ha : captureAhead c1.pc = true
    · have hpc : c1.pc = Pc.ledOn ∨ c1.pc = Pc.capture := by
        cases hp : c1.pc with
        | test => exact absurd hp htested
        | ledOn => exact Or.inl rfl
        | capture => exact Or.inr rfl
        | _ => rw [hp] at ha; simp [captureAhead] at ha
      rw [runCycle_before_capture cfg cap mallocOk code after
        { c1 with st := pirInterruptHandler t c1.st } hpc hend, hcalls]
      simp [ha]
    · have ha' : captureAhead c1.pc = false := by simpa using ha
      rw [runCycle_past_capture cfg cap mallocOk code after
        { c1 with st := pirInterruptHandler t c1.st } ha', hcalls]
      simp [ha']

/-- Witness for the amended C10: the edge arrives between the LED write and the
capture, so the capture of the cycle follows it, and the flag is cleared at the
end of the cycle. -/
theorem C10_edge_during_cycle_is_collapsed_witness :
    (runCycle demoSecrets (some demoFrame) true 200
        ([none, none] ++ some 12000 :: [none, none, none, none, none]) pendingCycle).pc
        = Pc.done ∧
      (runCycle demoSecrets (some demoFrame) true 200
        ([none, none] ++ some 12000 :: [none, none, none, none, none])
        pendingCycle).st.motionDetected = false :=
  ⟨by decide,
    (C10_edge_during_cycle_is_collapsed demoSecrets (some demoFrame) true 200 [none, none]
      [none, none, none, none, none] 12000 pendingCycle (by decide) (by decide) (by decide)
      (by decide)).2.2.1⟩

/-- The statements of the cycle run without interruption are the test of line 493
followed by `handleMotionEvent`. -/
theorem runCycle_uninterrupted (cfg : Secrets) (cap : Option Frame) (mallocOk : Bool)
    (code : Int) (s : State) (hflag : s.motionDetected = true) (hlink : s.wifiConnected = true) :
    (runCycle cfg cap mallocOk code [none, none, none, none, none, none, none]
        { pc := Pc.test, fb := none, st := s }).st
      = handleMotionEvent cfg cap mallocOk code s := by
  cases cap <;>
    simp [runCycle, motionStmt, handleMotionEvent, captureFrame, releaseFrame, hflag, hlink]

end ESP32Cam
